import Mathlib

/-!
# CompliAi gap-analysis / policy-generation core: shallow embedding

Shallow embedding of the algorithmic core of the CompliAi audit planner
(`apps/api/services/audit_planner_service.py` and
`apps/api/services/grc/document_processor.py`) together with theorems that
settle the frozen specification claims.

Conventions of the embedding:
* Python strings are Lean `String`s; dictionaries that carry a fixed schema
  become structures; dictionaries used as ordered maps become association
  lists (`List (String × _)`), matching Python's insertion-order semantics.
* Database writes always succeed in the model (the service swallows
  persistence errors and the claims under scrutiny are about state
  transitions, not about MongoDB failures).
* Calls that await an external service (LLM, document retrieval) are
  modelled by an environment value describing the outcome of the await:
  `.ok`, `.timeout` (the surrounding `asyncio.wait_for` fired) or
  `.err` (the awaited coroutine raised).
-/

namespace CompliAi

/-! ## Basic string helpers (Python `str.upper/.lower/.strip/.split`, `in`) -/

/-- Python `str.upper()` (ASCII, which is all the service ever compares),
written over the character list so that it evaluates by `decide`. -/
def upperStr (s : String) : String := String.mk (s.toList.map Char.toUpper)

/-- Python `str.lower()` (ASCII). -/
def lowerStr (s : String) : String := String.mk (s.toList.map Char.toLower)

/-- Occurrence of `pat` as a contiguous substring of `hay`
(Python's `pat in hay`). -/
def subOccurs (pat hay : List Char) : Bool :=
  match hay with
  | [] => pat.isEmpty
  | _ :: t => pat.isPrefixOf hay || subOccurs pat t

/-- Python `pat in hay` on strings. -/
def strContains (hay pat : String) : Bool := subOccurs pat.toList hay.toList

/-- Python `str.strip()`: drop leading and trailing whitespace, written
over the character list so that it evaluates by `decide` (equivalent to
`String.trim` on the ASCII text the service handles). -/
def stripStr (s : String) : String :=
  String.mk ((((s.toList.dropWhile Char.isWhitespace).reverse).dropWhile Char.isWhitespace).reverse)

/-- Python `len(s.split())`: number of maximal whitespace-free runs. -/
def wordCount (s : String) : Nat :=
  ((s.split Char.isWhitespace).filter (fun w => ¬ w.isEmpty)).length

/-! ## Data model (`models/audit_models.py`) -/

/-- Enum `AuditProjectStatus` — a `str` enum with capitalized values. -/
inductive Status where
  | draft
  | generating
  | review
  | completed
  | failed
deriving DecidableEq, Repr

/-- The `.value` of the status enum, i.e. the persisted string. -/
def Status.value : Status → String
  | .draft => "Draft"
  | .generating => "Generating"
  | .review => "Review"
  | .completed => "Completed"
  | .failed => "Failed"

/-- Model of `PolicyCitation`. The Python field `section` is spelled `section_` here
because `section` is a Lean keyword. -/
structure PolicyCitation where
  control_id : String
  control_title : String
  framework : String
  section_ : String
  description : String
  policy_section : String
deriving DecidableEq, Repr

/-- Model of `GeneratedPolicy` (the `generated_at` timestamp is irrelevant to every
claim and omitted). -/
structure GeneratedPolicy where
  content : String
  citations : List PolicyCitation
  word_count : Nat
deriving DecidableEq, Repr

/-- Model of `AuditTrailEntry`, reduced to the fields the claims talk about
(`action`, `details`); ids and timestamps carry no logic. -/
structure AuditTrailEntry where
  action : String
  details : String
deriving DecidableEq, Repr

/-- The analysis dictionary produced by the gap-analysis engine
(`compliance_score` / `covered_controls` / `missing_controls` / `gaps` /
`framework_controls`, after the validation step that guarantees the
fields are well-typed). -/
structure Analysis where
  compliance_score : Nat
  covered_controls : List String
  missing_controls : List String
  gaps : List String
  framework_controls : List String
deriving DecidableEq, Repr

/-- Persisted `AuditProject` state, reduced to the mutable fields the
claims quantify over. -/
structure Project where
  status : Status
  compliance_score : Option Nat
  covered_controls : List String
  missing_controls : List String
  generated_policy : Option GeneratedPolicy
  audit_trail : List AuditTrailEntry
deriving DecidableEq, Repr

/-! ## Progress calculator (`_calculate_progress`, lines 1010-1038) -/

/-- The `status_progress` dict literal: keys `"GENERATING"`, `"COMPLETED"`,
`"FAILED"`, `"Generating"`, `"Completed"`, `"Failed"`; `.get` misses give
`none`. -/
def statusProgressTable (s : String) : Option Nat :=
  if s = "GENERATING" then some 20
  else if s = "COMPLETED" then some 100
  else if s = "FAILED" then some 0
  else if s = "Generating" then some 20
  else if s = "Completed" then some 100
  else if s = "Failed" then some 0
  else none

/-- Python `status_progress.get(status, status_progress.get(status.upper(), 0))`. -/
def baseProgress (status : String) : Nat :=
  (statusProgressTable status).getD ((statusProgressTable (upperStr status)).getD 0)

/-- Model of `_calculate_progress(status, latest_entry)`. `latestEntry = none` models
both a missing latest entry and a falsy (empty-dict) one; `some e` is an
entry whose `.get("action", "")` is `e.action`. -/
def calculateProgress (status : String) (latestEntry : Option AuditTrailEntry) : Nat :=
  let base := baseProgress status
  match latestEntry with
  | none => base
  | some e =>
    if upperStr status = "GENERATING" ∨ status = "Generating" then
      let action := lowerStr e.action
      if strContains action "analysis started" then 25
      else if strContains action "analysis complete" then 50
      else if strContains action "policy generation started" then 70
      else if strContains action "policy generation complete" then 90
      else if strContains action "project completed" then 100
      else base
    else base

/-- Modelled from the claim's words (C4): the progress function as the spec
describes it — 100 on Completed, 0 on Failed (case-insensitively), and for
Generating the ordered substring refinement over the lowercased latest
action with base 20. Used only to compare against `calculateProgress`. -/
def progressSpec (status : String) (latestAction : Option String) : Nat :=
  if upperStr status = "COMPLETED" then 100
  else if upperStr status = "FAILED" then 0
  else
    match latestAction with
    | none => 20
    | some a =>
      let action := lowerStr a
      if strContains action "analysis started" then 25
      else if strContains action "analysis complete" then 50
      else if strContains action "policy generation started" then 70
      else if strContains action "policy generation complete" then 90
      else if strContains action "project completed" then 100
      else 20

/-! ## Gap-analysis fallback tables
(`_get_default_framework_controls`, `_generate_framework_based_analysis`,
`_get_default_analysis`) -/

/-- Model of `_get_default_framework_controls` (lines 321-332). -/
def getDefaultFrameworkControls (framework : String) : List String :=
  if framework = "ISO27001" then
    ["A.5.1.1", "A.5.1.2", "A.9.1.1", "A.9.2.1", "A.12.1.1", "A.8.1.1", "A.16.1.1", "A.18.1.1"]
  else if framework = "SOC2" then
    ["CC1.1", "CC2.1", "CC3.1", "CC4.1", "CC5.1", "CC6.1", "CC7.1", "CC8.1"]
  else if framework = "NIST_CSF" then
    ["ID.AM-1", "ID.AM-2", "PR.AC-1", "PR.AC-3", "DE.AE-1", "PR.DS-1", "RS.RP-1", "RC.RP-1"]
  else if framework = "GDPR" then
    ["Art. 5", "Art. 6", "Art. 13", "Art. 14", "Art. 25", "Art. 32", "Art. 33", "Art. 35"]
  else if framework = "PCI_DSS" then
    ["1.1", "2.1", "3.1", "4.1", "5.1", "6.1", "7.1", "8.1"]
  else if framework = "HIPAA" then
    ["164.308", "164.310", "164.312", "164.314", "164.316", "164.318"]
  else
    ["Control-1", "Control-2", "Control-3", "Control-4", "Control-5"]

/-- The `framework_specific_data` table of
`_generate_framework_based_analysis` (lines 884-921): score, covered,
missing, gaps per known framework; `none` for unknown frameworks. -/
def frameworkSpecificData (framework : String) :
    Option (Nat × List String × List String × List String) :=
  if framework = "ISO27001" then
    some (78,
      ["A.5.1.1", "A.5.1.2", "A.9.1.1", "A.9.2.1", "A.12.1.1", "A.12.1.2"],
      ["A.8.1.1", "A.8.1.2", "A.16.1.1", "A.16.1.2", "A.18.1.1", "A.18.1.2"],
      ["Asset inventory management", "Incident response procedures",
       "Legal and contractual requirements"])
  else if framework = "SOC2" then
    some (82,
      ["CC1.1", "CC2.1", "CC3.1", "CC4.1", "CC5.1"],
      ["CC6.1", "CC7.1", "CC8.1", "A1.1", "A1.2"],
      ["Logical access controls", "System monitoring", "Data processing integrity"])
  else if framework = "NIST_CSF" then
    some (75,
      ["ID.AM-1", "ID.AM-2", "PR.AC-1", "PR.AC-3", "DE.AE-1"],
      ["PR.DS-1", "PR.DS-2", "RS.RP-1", "RS.CO-1", "RC.RP-1"],
      ["Data security controls", "Response planning", "Recovery procedures"])
  else if framework = "GDPR" then
    some (68,
      ["Art. 5", "Art. 6", "Art. 13", "Art. 14"],
      ["Art. 25", "Art. 32", "Art. 33", "Art. 35"],
      ["Data protection by design", "Security measures", "Breach notification",
       "Impact assessments"])
  else if framework = "PCI_DSS" then
    some (72,
      ["1.1", "2.1", "3.1", "4.1"],
      ["5.1", "6.1", "7.1", "8.1"],
      ["Firewall configuration", "Vulnerability management", "Access control"])
  else if framework = "HIPAA" then
    some (70,
      ["164.308", "164.310", "164.312"],
      ["164.314", "164.316", "164.318"],
      ["Administrative safeguards", "Physical safeguards", "Technical safeguards"])
  else none

/-- Model of `_generate_framework_based_analysis(framework, framework_controls)`
(lines 882-938). -/
def generateFrameworkBasedAnalysis (framework : String)
    (framework_controls : List String) : Analysis :=
  let data : Nat × List String × List String × List String :=
    match frameworkSpecificData framework with
    | some d => d
    | none =>
      (72,
       if framework_controls.isEmpty then ["Policy-1", "Access-1", "Monitor-1"]
       else framework_controls.take (min 5 framework_controls.length),
       if framework_controls.length > 5 then
         (framework_controls.take (min 10 framework_controls.length)).drop 5
       else ["Security-1", "Audit-1", "Review-1"],
       ["Policy completeness", "Implementation procedures", "Monitoring and review"])
  { compliance_score := data.1
    covered_controls := data.2.1
    missing_controls := data.2.2.1
    gaps := data.2.2.2
    framework_controls :=
      if framework_controls.isEmpty then data.2.1 ++ data.2.2.1
      else framework_controls }

/-- Model of `_get_default_analysis` (lines 940-948). -/
def getDefaultAnalysis : Analysis :=
  { compliance_score := 70
    covered_controls := ["Basic policy structure", "General security principles"]
    missing_controls := ["Specific control implementations", "Detailed procedures"]
    gaps := ["Framework-specific requirements", "Implementation details",
             "Monitoring procedures"]
    framework_controls := [] }

/-! ## Framework knowledge base (`services/grc/knowledge_base.py`)

The catalog is a static dict `framework → {name, version, controls}`; only
the shape matters to the claims (unknown frameworks yield the empty dict),
so the model carries the fields the audit planner reads. -/

/-- One entry of a framework's `controls` dict (`title`, `description`;
the remaining keys are never read by the audit planner). -/
structure ControlInfo where
  title : String
  description : String
deriving DecidableEq, Repr

/-- One entry of the `frameworks` dict. -/
structure FrameworkInfo where
  name : String
  controls : List (String × ControlInfo)
deriving DecidableEq, Repr

/-- Model of the `GRCKnowledgeBase` state: the `frameworks` dict as an ordered
association list. -/
structure KnowledgeBase where
  frameworks : List (String × FrameworkInfo)
deriving DecidableEq, Repr

/-- Model of `get_framework_info`: `self.frameworks.get(framework, {})`; the empty
dict is modelled by a `FrameworkInfo` with no name and no controls. -/
def getFrameworkInfo (kb : KnowledgeBase) (framework : String) : FrameworkInfo :=
  match kb.frameworks.find? (fun q => q.1 = framework) with
  | some q => q.2
  | none => { name := "", controls := [] }

/-! ## Citation derivation (`_generate_citations`, `_map_control_to_section`,
`_map_control_to_policy_section`, lines 788-835) -/

/-- Model of `_map_control_to_section`. -/
def mapControlToSection (control_id : String) : String :=
  if strContains control_id "5.1" then "Section 2 - Policy Statement"
  else if strContains control_id "9.1" then "Section 3 - Access Control"
  else if strContains control_id "12.1" then "Section 4 - Operations"
  else "Section 1 - Purpose and Scope"

/-- Model of `_map_control_to_policy_section`. -/
def mapControlToPolicySection (control_id : String) : String :=
  if strContains control_id "5.1" then "Policy Statement"
  else if strContains control_id "9.1" then "Access Control Procedures"
  else if strContains control_id "12.1" then "Operational Procedures"
  else "Purpose and Scope"

/-- Model of `_generate_citations(analysis, framework)`. The very first line reads
`self.grc_knowledge.get_framework_info(framework)` without a `None` guard
(line 793): when the knowledge base failed to initialize this is an
`AttributeError` on `None`, modelled as `.error`. Otherwise the loop over
the first ten covered+missing control ids is pure. -/
def generateCitations (kb : Option KnowledgeBase) (analysis : Analysis)
    (framework : String) : Except String (List PolicyCitation) :=
  match kb with
  | none => .error "AttributeError: NoneType object has no attribute get_framework_info"
  | some k =>
    let controls := (getFrameworkInfo k framework).controls
    let all_controls := analysis.covered_controls ++ analysis.missing_controls
    .ok ((all_controls.take 10).map (fun control_id =>
      let details := (controls.find? (fun q => q.1 = control_id)).map (fun q => q.2)
      { control_id := control_id
        control_title :=
          match details with
          | some d => d.title
          | none => "Control " ++ control_id
        framework := framework
        section_ := mapControlToSection control_id
        description :=
          match details with
          | some d => d.description
          | none => "Framework control requirement"
        policy_section := mapControlToPolicySection control_id }))

/-! ## Fallback policy synthesis (`_generate_fallback_policy` and the
per-framework templates, lines 409-786)

The four framework-specific templates and the generic template are pure
string interpolations.  The static prose of each template (hundreds of
lines of policy text) carries no logic that any claim mentions, so each
template is embedded with its interpolation structure — title, score and
missing-control interpolations at their source positions — while the
untouched static prose between interpolation points is abbreviated to the
template's section headers.  Every claim about this stage only uses that
the result is a deterministic, total function of (title, framework,
analysis). -/

/-- Python `", ".join(xs)`. -/
def joinComma : List String → String
  | [] => ""
  | [x] => x
  | x :: rest => x ++ ", " ++ joinComma rest

/-- Model of `_generate_iso27001_policy` (abbreviated prose, see section comment). -/
def generateIso27001Policy (title : String) (analysis : Analysis) : String :=
  let missing := joinComma analysis.missing_controls
  "# " ++ title ++
  "\n## 1. PURPOSE AND SCOPE\n## 2. INFORMATION SECURITY POLICY STATEMENT" ++
  "\n## 3. ACCESS CONTROL MANAGEMENT\n## 4. ASSET MANAGEMENT" ++
  "\n## 5. INCIDENT MANAGEMENT\n## 6. COMPLIANCE AND MONITORING\n" ++
  "Current compliance score: " ++ toString analysis.compliance_score ++ "%\n" ++
  "Priority controls to implement: " ++ missing ++
  "\n## 7. ROLES AND RESPONSIBILITIES\n"

/-- Model of `_generate_soc2_policy` (abbreviated prose). -/
def generateSoc2Policy (title : String) (analysis : Analysis) : String :=
  let missing := joinComma analysis.missing_controls
  "# " ++ title ++
  "\n## 1. PURPOSE AND SCOPE\n## 2. CONTROL ENVIRONMENT\n## 3. RISK ASSESSMENT" ++
  "\n## 4. CONTROL ACTIVITIES\n## 5. INFORMATION AND COMMUNICATION" ++
  "\n## 6. MONITORING ACTIVITIES\n## 7. COMPLIANCE AND MONITORING\n" ++
  "Current compliance score: " ++ toString analysis.compliance_score ++ "%\n" ++
  "Priority controls to implement: " ++ missing ++
  "\n## 8. ROLES AND RESPONSIBILITIES\n"

/-- Model of `_generate_nist_policy` (abbreviated prose). -/
def generateNistPolicy (title : String) (analysis : Analysis) : String :=
  let missing := joinComma analysis.missing_controls
  "# " ++ title ++
  "\n## 1. PURPOSE AND SCOPE\n## 2. IDENTIFY (ID)\n## 3. PROTECT (PR)" ++
  "\n## 4. DETECT (DE)\n## 5. RESPOND (RS)\n## 6. RECOVER (RC)" ++
  "\n## 7. COMPLIANCE AND MONITORING\n" ++
  "Current compliance score: " ++ toString analysis.compliance_score ++ "%\n" ++
  "Priority functions to implement: " ++ missing ++
  "\n## 8. ROLES AND RESPONSIBILITIES\n"

/-- Model of `_generate_gdpr_policy` (abbreviated prose). -/
def generateGdprPolicy (title : String) (analysis : Analysis) : String :=
  let missing := joinComma analysis.missing_controls
  "# " ++ title ++
  "\n## 1. PURPOSE AND SCOPE\n## 2. DATA PROTECTION PRINCIPLES" ++
  "\n## 3. LAWFUL BASIS FOR PROCESSING\n## 4. DATA SUBJECT RIGHTS" ++
  "\n## 5. DATA PROTECTION BY DESIGN AND BY DEFAULT\n## 6. SECURITY OF PROCESSING" ++
  "\n## 7. DATA BREACH NOTIFICATION\n## 8. COMPLIANCE AND MONITORING\n" ++
  "Current compliance score: " ++ toString analysis.compliance_score ++ "%\n" ++
  "Priority articles to address: " ++ missing ++
  "\n## 9. ROLES AND RESPONSIBILITIES\n"

/-- Model of `_generate_generic_policy` (abbreviated prose). -/
def generateGenericPolicy (title framework : String) (analysis : Analysis) : String :=
  "# " ++ title ++
  "\n## 1. PURPOSE AND SCOPE\n" ++
  "Framework Alignment: This section satisfies " ++ framework ++ ": Policy Framework" ++
  "\n## 2. POLICY STATEMENT\n## 3. ACCESS CONTROL PROCEDURES" ++
  "\n## 4. OPERATIONAL PROCEDURES\n## 5. RESPONSIBILITIES" ++
  "\n## 6. COMPLIANCE AND MONITORING\n" ++
  "Current Status: " ++ toString analysis.compliance_score ++ "% compliant" ++
  "\n## 7. ENFORCEMENT\n"

/-- Model of `_generate_fallback_policy` (lines 409-422): pure dispatch on the
framework name. -/
def generateFallbackPolicy (title framework : String) (analysis : Analysis) : String :=
  if framework = "ISO27001" then generateIso27001Policy title analysis
  else if framework = "SOC2" then generateSoc2Policy title analysis
  else if framework = "NIST_CSF" then generateNistPolicy title analysis
  else if framework = "GDPR" then generateGdprPolicy title analysis
  else generateGenericPolicy title framework analysis

/-! ## Orchestrator / workflow (`_generate_policy_async`, lines 134-248)

Awaited external calls are abstracted by an environment describing the
outcome of each await; everything downstream of an outcome is the source's
own control flow. Persistence writes always succeed in the model (the
service logs and swallows database errors on every write path). -/

/-- Outcome of one `asyncio.wait_for(...)` in the workflow body:
the await returned, the surrounding timeout fired, or the awaited
coroutine raised. -/
inductive StageOutcome where
  | ok
  | timeout
  | err (msg : String)
deriving DecidableEq, Repr

/-- Outcome of the document coverage query inside
`_analyze_source_document` (lines 282-309): a parsed-and-validated
analysis, the 3-minute timeout, or a query error. The parsing/validation
of the raw answer (`_parse_compliance_analysis` plus the `isinstance`
checks) is abstracted into the carried `Analysis`; its tolerant-JSON
front end is modelled separately for claim C8. -/
inductive DocQueryOutcome where
  | answer (a : Analysis)
  | timeout
  | err (msg : String)
deriving DecidableEq, Repr

/-- Environment of one workflow run: outcomes of the awaited calls. -/
structure WorkflowEnv where
  /-- `asyncio.wait_for(self._analyze_source_document(..), timeout=300)` (line 147). -/
  analysisAwait : StageOutcome
  /-- the document query inside `_analyze_source_document`, used only when
  a document id is present and the document processor is available. -/
  docQuery : DocQueryOutcome
  /-- `asyncio.wait_for(self._generate_policy_content(..), timeout=600)` (line 178). -/
  policyAwait : StageOutcome
  /-- `self.llm_manager.generate_response(..)` inside
  `_generate_policy_content`: `none` models the inner 5-minute timeout or
  an LLM error (both of which that function converts to the fallback). -/
  llmPolicy : Option String
deriving Repr

/-- Model of `_analyze_source_document(document_id, framework)` (lines 250-319).
Total: every failure path inside it returns a fallback analysis. -/
def analyzeSourceDocument (kb : Option KnowledgeBase) (docProcessorAvailable : Bool)
    (documentId : Option String) (framework : String) (env : WorkflowEnv) : Analysis :=
  let framework_controls :=
    match kb with
    | some k => (getFrameworkInfo k framework).controls.map (fun q => q.1)
    | none => getDefaultFrameworkControls framework
  match documentId, docProcessorAvailable with
  | some _, true =>
    match env.docQuery with
    | .answer a => { a with framework_controls := framework_controls }
    | .timeout => generateFrameworkBasedAnalysis framework framework_controls
    | .err _ => generateFrameworkBasedAnalysis framework framework_controls
  | _, _ => generateFrameworkBasedAnalysis framework framework_controls

/-- Model of `_generate_policy_content` (lines 334-407). Total: LLM unavailability,
a short/empty response and the inner timeout all fall back to the
deterministic template. -/
def generatePolicyContent (kb : Option KnowledgeBase) (llmAvailable : Bool)
    (env : WorkflowEnv) (analysis : Analysis) (framework title : String) : String :=
  if llmAvailable then
    match env.llmPolicy with
    | some content =>
      if wordCount content < 100 then generateFallbackPolicy title framework analysis
      else content
    | none => generateFallbackPolicy title framework analysis
  else generateFallbackPolicy title framework analysis

/-- Model of `_update_project_status` (lines 1207-1225): unconditional `$set` of the
status field. -/
def updateProjectStatus (p : Project) (s : Status) : Project :=
  { p with status := s }

/-- Model of `_add_audit_trail_entry` (lines 1277-1306): `$push` a trail entry. -/
def addAuditTrailEntry (p : Project) (action details : String) : Project :=
  { p with audit_trail := p.audit_trail ++ [⟨action, details⟩] }

/-- Model of `_complete_project` (lines 1227-1275): one atomic update setting status
`"Completed"`, the score, the control lists and the generated policy, and
pushing a `"Project Completed"` trail entry. -/
def completeProject (p : Project) (generated_policy : GeneratedPolicy)
    (compliance_score : Nat) (covered missing : List String) : Project :=
  { p with
    status := .completed
    compliance_score := some compliance_score
    covered_controls := covered
    missing_controls := missing
    generated_policy := some generated_policy
    audit_trail := p.audit_trail ++
      [⟨"Project Completed", "Policy generation completed successfully"⟩] }

/-- The outer `except` of `_generate_policy_async` (lines 236-248): status
to Failed plus a `"Generation Failed"` trail entry. -/
def failWorkflow (p : Project) (msg : String) : Project :=
  addAuditTrailEntry (updateProjectStatus p .failed)
    "Generation Failed" ("Policy generation failed: " ++ msg)

/-- Step 3 of `_generate_policy_async` (lines 205-234): citations, policy
record, `_complete_project`, final trail entry; any exception here (in the
source, only `_generate_citations` can raise) escapes to the outer handler
as `ServiceError`. -/
def runCompletionStage (kb : Option KnowledgeBase) (analysis : Analysis)
    (content framework : String) (p : Project) : Project :=
  match generateCitations kb analysis framework with
  | .error e => failWorkflow p ("Failed to complete project: " ++ e)
  | .ok citations =>
    let gp : GeneratedPolicy :=
      { content := content, citations := citations, word_count := wordCount content }
    let p := completeProject p gp analysis.compliance_score
      analysis.covered_controls analysis.missing_controls
    addAuditTrailEntry p "Project Completed"
      "Policy generation completed successfully with framework citations"

/-- Step 2 of `_generate_policy_async` (lines 170-203): a timeout of the
10-minute guard is re-raised as `ServiceError` (line 190) and fails the
workflow; any other exception demotes to the fallback policy. -/
def runPolicyStage (kb : Option KnowledgeBase) (llmAvailable : Bool)
    (env : WorkflowEnv) (analysis : Analysis) (title framework : String)
    (p : Project) : Project :=
  let p := addAuditTrailEntry p "Policy Generation Started"
    ("Generating policy content for " ++ framework)
  match env.policyAwait with
  | .timeout => failWorkflow p "Policy generation timed out after 10 minutes"
  | .err e =>
    let content := generateFallbackPolicy title framework analysis
    let p := addAuditTrailEntry p "Policy Fallback Used"
      ("Using fallback policy due to error: " ++ e)
    runCompletionStage kb analysis content framework p
  | .ok =>
    let content := generatePolicyContent kb llmAvailable env analysis framework title
    let p := addAuditTrailEntry p "Policy Generation Complete"
      ("Generated policy with " ++ toString (wordCount content) ++ " words")
    runCompletionStage kb analysis content framework p

/-- Model of `_generate_policy_async` (lines 134-248). Step 1: a timeout of the
5-minute guard is re-raised as `ServiceError` (line 159) and reaches the
outer handler, which marks the project Failed; a non-timeout exception
demotes to `_get_default_analysis`. -/
def runWorkflow (kb : Option KnowledgeBase)
    (docProcessorAvailable llmAvailable : Bool) (env : WorkflowEnv)
    (documentId : Option String) (title framework : String) (p : Project) : Project :=
  let p := updateProjectStatus p .generating
  let p := addAuditTrailEntry p "Analysis Started"
    "Beginning document analysis and compliance assessment"
  match env.analysisAwait with
  | .timeout => failWorkflow p "Document analysis timed out after 5 minutes"
  | .err e =>
    let analysis := getDefaultAnalysis
    let p := addAuditTrailEntry p "Analysis Fallback"
      ("Using fallback analysis due to error: " ++ e)
    runPolicyStage kb llmAvailable env analysis title framework p
  | .ok =>
    let analysis := analyzeSourceDocument kb docProcessorAvailable documentId framework env
    let p := addAuditTrailEntry p "Analysis Complete"
      ("Document analysis completed. Compliance score: " ++
        toString analysis.compliance_score ++ "%")
    runPolicyStage kb llmAvailable env analysis title framework p

/-! ## Manual update (`update_audit_project`, lines 1308-1379) -/

/-- The caller-supplied `update_data` dict. Besides `policy_content`
(handled specially, lines 1331-1348) every other key is copied verbatim
into the `$set` document (lines 1350-1353); the model carries the two
passthrough fields that touch claimed invariants. -/
structure UpdateData where
  policy_content : Option String := none
  status : Option Status := none
  compliance_score : Option (Option Nat) := none
deriving Repr

/-- Model of `update_audit_project(project_id, update_data, user_id)` on a found
project: build the `$set` document and apply it, then push the
`"Policy Updated"` trail entry. -/
def updateAuditProject (u : UpdateData) (p : Project) : Project :=
  let p1 :=
    match u.policy_content with
    | none => p
    | some content =>
      match p.generated_policy with
      | some gp =>
        let gp' := { gp with content := content, word_count := wordCount content }
        { p with generated_policy := some gp' }
      | none =>
        let gp' : GeneratedPolicy :=
          { content := content, citations := [], word_count := wordCount content }
        { p with generated_policy := some gp' }
  let p2 := match u.status with | none => p1 | some s => { p1 with status := s }
  let p3 :=
    match u.compliance_score with
    | none => p2
    | some sc => { p2 with compliance_score := sc }
  addAuditTrailEntry p3 "Policy Updated" "Policy content was manually edited and saved"

/-! ## Operation alphabet for lifecycle claims -/

/-- The mutating operations this core performs on a persisted project. -/
inductive Op where
  | updateStatus (s : Status)
  | addTrail (action details : String)
  | manualUpdate (u : UpdateData)
  | complete (gp : GeneratedPolicy) (score : Nat) (covered missing : List String)

/-- Apply one operation. -/
def applyOp (p : Project) : Op → Project
  | .updateStatus s => updateProjectStatus p s
  | .addTrail a d => addAuditTrailEntry p a d
  | .manualUpdate u => updateAuditProject u p
  | .complete gp sc c m => completeProject p gp sc c m

/-- Operations that do not write the status field explicitly: trail appends
and manual updates whose `update_data` carries no `status` key. -/
def Op.statusSafe : Op → Prop
  | .addTrail _ _ => True
  | .manualUpdate u => u.status = none
  | _ => False

/-! ## Tolerant JSON extraction (`extract_json`,
`services/grc/document_processor.py` lines 29-37)

`json.loads` is modelled by a fuel-bounded recursive-descent parser for the
JSON fragment the service exchanges (objects, arrays, strings without
escape sequences, integer numbers, booleans, null); like `json.loads` it
rejects trailing non-whitespace. -/

/-- JSON values (numbers restricted to integers). -/
inductive Json where
  | null
  | bool (b : Bool)
  | num (n : Int)
  | str (s : String)
  | arr (elems : List Json)
  | obj (fields : List (String × Json))
deriving Repr, BEq

/-- JSON insignificant whitespace. -/
def isJsonWs (c : Char) : Bool := c = ' ' ∨ c = '\n' ∨ c = '\t' ∨ c = '\r'

/-- Skip insignificant whitespace. -/
def skipWs (cs : List Char) : List Char := cs.dropWhile isJsonWs

/-- Scan a string literal body after the opening quote (no escapes in the
modelled fragment). Returns the content and the rest after the closing
quote. -/
def scanString : List Char → Option (List Char × List Char)
  | [] => none
  | c :: rest =>
    if c = '"' then some ([], rest)
    else if c = '\\' then none
    else (scanString rest).map (fun q => (c :: q.1, q.2))

/-- Digits to a natural number. -/
def digitsToNat (ds : List Char) : Nat :=
  ds.foldl (fun a c => a * 10 + (c.toNat - '0'.toNat)) 0

/-- Parse a nonempty digit run. -/
def parseNatLit (cs : List Char) : Option (Nat × List Char) :=
  let ds := cs.takeWhile Char.isDigit
  if ds.isEmpty then none else some (digitsToNat ds, cs.dropWhile Char.isDigit)

/-- Parse an integer literal with optional leading minus. -/
def parseIntLit : List Char → Option (Int × List Char)
  | '-' :: rest => (parseNatLit rest).map (fun q => (-(q.1 : Int), q.2))
  | cs => (parseNatLit cs).map (fun q => ((q.1 : Int), q.2))

/-- Match an exact literal. -/
def parseLit (cs lit : List Char) : Option (List Char) :=
  if lit.isPrefixOf cs then some (cs.drop lit.length) else none

mutual

/-- Parse one JSON value. -/
def parseValue : Nat → List Char → Option (Json × List Char)
  | 0, _ => none
  | fuel + 1, input =>
    match skipWs input with
    | [] => none
    | c :: rest =>
      if c = '{' then
        match skipWs rest with
        | '}' :: r2 => some (.obj [], r2)
        | r2 => (parseFields fuel r2).map (fun q => (.obj q.1, q.2))
      else if c = '[' then
        match skipWs rest with
        | ']' :: r2 => some (.arr [], r2)
        | r2 => (parseElems fuel r2).map (fun q => (.arr q.1, q.2))
      else if c = '"' then
        (scanString rest).map (fun q => (.str (String.mk q.1), q.2))
      else if c = 't' then
        (parseLit (c :: rest) "true".toList).map (fun r => (.bool true, r))
      else if c = 'f' then
        (parseLit (c :: rest) "false".toList).map (fun r => (.bool false, r))
      else if c = 'n' then
        (parseLit (c :: rest) "null".toList).map (fun r => (.null, r))
      else
        (parseIntLit (c :: rest)).map (fun q => (.num q.1, q.2))

/-- Parse the members of an object after its opening brace (nonempty case). -/
def parseFields : Nat → List Char → Option (List (String × Json) × List Char)
  | 0, _ => none
  | fuel + 1, cs =>
    match skipWs cs with
    | '"' :: rest =>
      match scanString rest with
      | none => none
      | some (key, r1) =>
        match skipWs r1 with
        | ':' :: r2 =>
          match parseValue fuel r2 with
          | none => none
          | some (v, r3) =>
            match skipWs r3 with
            | ',' :: r4 =>
              (parseFields fuel r4).map (fun q => ((String.mk key, v) :: q.1, q.2))
            | '}' :: r4 => some ([(String.mk key, v)], r4)
            | _ => none
        | _ => none
    | _ => none

/-- Parse the elements of an array after its opening bracket (nonempty case). -/
def parseElems : Nat → List Char → Option (List Json × List Char)
  | 0, _ => none
  | fuel + 1, cs =>
    match parseValue fuel cs with
    | none => none
    | some (v, r1) =>
      match skipWs r1 with
      | ',' :: r2 => (parseElems fuel r2).map (fun q => (v :: q.1, q.2))
      | ']' :: r2 => some ([v], r2)
      | _ => none

end

/-- Model of `json.loads(s)`: parse one value, reject trailing non-whitespace. Each
parser level consumes at least one character before recursing, so fuel
`length + 1` never runs out on input it would otherwise accept. -/
def jsonParse (s : String) : Option Json :=
  match parseValue (s.length + 1) s.toList with
  | some (v, rest) => if (skipWs rest).isEmpty then some v else none
  | none => none

/-- Not a closing brace. -/
def notClose (c : Char) : Bool := c ≠ '}'

/-- Not an opening brace. -/
def notOpen (c : Char) : Bool := c ≠ '{'

/-- The match of `re.search` with pattern opening-brace `.*` closing-brace
under DOTALL: with a greedy `.*`, the leftmost-longest match runs from the
first `'{'` to the last `'}'` of the whole text, and exists iff some `'}'`
occurs after the first `'{'`. Computed by trimming everything after the
last `'}'`, then everything before the first `'{'`. -/
def greedyBraceSpan (cs : List Char) : Option (List Char) :=
  let upto := (cs.reverse.dropWhile notClose).reverse
  let m := upto.dropWhile notOpen
  if m.isEmpty then none else some m

/-- Model of `extract_json(text)` (lines 29-37): regex-match the greedy brace span
and `json.loads` it; both a missing match and a `JSONDecodeError` yield the
empty dict, modelled `none`. -/
def extract_json (text : String) : Option Json :=
  match greedyBraceSpan text.toList with
  | none => none
  | some span => jsonParse (String.mk span)

/-- Modelled from the claim's words (C8): "extracts and returns the first
balanced-brace JSON object appearing in the text" — scan to the first
`'{'`, take the shortest balanced-brace span from it, and parse that span.
Used only to compare against `extract_json`. -/
def balancedSpanAux : List Char → Nat → List Char → Option (List Char)
  | [], _, _ => none
  | c :: rest, depth, acc =>
    if c = '{' then balancedSpanAux rest (depth + 1) (c :: acc)
    else if c = '}' then
      if depth = 1 then some (c :: acc).reverse
      else balancedSpanAux rest (depth - 1) (c :: acc)
    else balancedSpanAux rest depth (c :: acc)

/-- Modelled from the claim's words (C8), see `balancedSpanAux`. -/
def claimExtractJson (text : String) : Option Json :=
  match balancedSpanAux (text.toList.dropWhile (fun c => c ≠ '{')) 0 [] with
  | none => none
  | some span => jsonParse (String.mk span)

/-! ## Chunked control extraction and dedup
(`_process_chunks_individually`, `_process_large_document_in_chunks`,
`_process_document_chunk`; `document_processor.py` lines 395-650) -/

/-- One entry of a control's `mappings` list. -/
structure ControlMapping where
  framework : String
  control_id : String
  control_title : String
  mapping_confidence : String
  rationale : String
deriving DecidableEq, Repr

/-- One extracted control of `mapped_controls`. -/
structure MappedControl where
  extracted_statement : String
  ai_control_summary : String
  mappings : List ControlMapping
deriving DecidableEq, Repr

/-- One per-framework gap entry of `gap_analysis`. -/
structure GapEntry where
  control_id : String
  control_title : String
  description : String
deriving DecidableEq, Repr

/-- The parsed per-chunk LLM response (the parts the merge reads). -/
structure ChunkResult where
  mapped_controls : List MappedControl
  gap_analysis : List (String × List GapEntry)
deriving DecidableEq, Repr

/-- One input chunk together with the outcome of `_process_document_chunk`
on it: `none` models the `{}` that function returns when the LLM is
unavailable, when `extract_json` fails on the response (malformed, empty or
otherwise unparseable output, lines 630-637), or when an exception is
caught (lines 646-650); `some r` models a successfully parsed response. -/
structure Chunk where
  text : String
  llmOutcome : Option ChunkResult
deriving Repr

/-- Merge one chunk's `gap_analysis` dict into the accumulator
(`all_gap_analysis[framework].extend(gaps)`, inserting missing keys at the
end, in Python dict insertion order). -/
def extendGapDict (d : List (String × List GapEntry)) (fw : String)
    (gs : List GapEntry) : List (String × List GapEntry) :=
  if fw ∈ d.map Prod.fst then
    d.map (fun q => if q.1 = fw then (q.1, q.2 ++ gs) else q)
  else d ++ [(fw, gs)]

/-- Fold a whole chunk result's gap dict into the accumulator. -/
def mergeGapDict (d g : List (String × List GapEntry)) :
    List (String × List GapEntry) :=
  g.foldl (fun acc q => extendGapDict acc q.1 q.2) d

/-- One iteration of the accumulation loop of
`_process_chunks_individually` (lines 404-430) over the running
`(all_controls, all_gap_analysis, total_chars)`: chunks whose stripped
text is shorter than 100 characters are skipped, chunks whose LLM outcome
is `{}` contribute nothing. -/
def chunkStep (acc : List MappedControl × List (String × List GapEntry) × Nat)
    (c : Chunk) : List MappedControl × List (String × List GapEntry) × Nat :=
  let chars := acc.2.2 + c.text.length
  if (stripStr c.text).length < 100 then (acc.1, acc.2.1, chars)
  else
    match c.llmOutcome with
    | none => (acc.1, acc.2.1, chars)
    | some r =>
      (acc.1 ++ r.mapped_controls, mergeGapDict acc.2.1 r.gap_analysis, chars)

/-- The whole accumulation loop of `_process_chunks_individually`. -/
def collectChunks (chunks : List Chunk) :
    List MappedControl × List (String × List GapEntry) × Nat :=
  chunks.foldl chunkStep ([], [], 0)

/-- First `n` characters of a string (Python `s[:n]`). -/
def takeChars (n : Nat) (s : String) : String := String.mk (s.toList.take n)

/-- The dedup key of lines 438-440:
`f"{statement[:100]}|{summary[:100]}"` over the stripped statement and
summary. -/
def controlKey (c : MappedControl) : String :=
  takeChars 100 (stripStr c.extracted_statement) ++ "|" ++
    takeChars 100 (stripStr c.ai_control_summary)

/-- The control dedup loop of lines 433-444: keep a control iff its key is
unseen *and* its stripped statement is non-empty; only kept controls add
their key to the seen set. -/
def dedupControlsAux : List MappedControl → List String → List MappedControl
  | [], _ => []
  | c :: rest, seen =>
    if controlKey c ∉ seen ∧ stripStr c.extracted_statement ≠ "" then
      c :: dedupControlsAux rest (controlKey c :: seen)
    else dedupControlsAux rest seen

/-- Control dedup over the merged list. -/
def dedupControls (l : List MappedControl) : List MappedControl :=
  dedupControlsAux l []

/-- Modelled from the claim's words (C7): "a control is treated as a
duplicate exactly when the key formed from the first 100 characters of its
extracted_statement plus the first 100 characters of its
ai_control_summary was already seen, keeping the first occurrence". Used
only to compare against `dedupControls`. -/
def claimDedupAux : List MappedControl → List String → List MappedControl
  | [], _ => []
  | c :: rest, seen =>
    let key := takeChars 100 c.extracted_statement ++ takeChars 100 c.ai_control_summary
    if key ∈ seen then claimDedupAux rest seen
    else c :: claimDedupAux rest (key :: seen)

/-- Modelled from the claim's words (C7), see `claimDedupAux`. -/
def claimDedup (l : List MappedControl) : List MappedControl := claimDedupAux l []

/-- The gap dedup loop of lines 446-455 applied to one framework's list:
keep the first gap per `control_id`. -/
def dedupGapsAux : List GapEntry → List String → List GapEntry
  | [], _ => []
  | g :: rest, seen =>
    if g.control_id ∈ seen then dedupGapsAux rest seen
    else g :: dedupGapsAux rest (g.control_id :: seen)

/-- Gap dedup over the whole per-framework dict. -/
def dedupGapDict (d : List (String × List GapEntry)) :
    List (String × List GapEntry) :=
  d.map (fun q => (q.1, dedupGapsAux q.2 []))

/-- The merged output of `_process_chunks_individually` (lines 463-473);
`frameworks_analyzed` is the constant `["ISO 27001", "SOC 2", "NIST"]` and
is omitted. -/
structure ExtractionResult where
  document_character_count : Nat
  identified_controls_count : Nat
  total_raw_controls_found : Nat
  chunks_processed : Nat
  mapped_controls : List MappedControl
  gap_analysis : List (String × List GapEntry)
deriving Repr

/-- Model of `_process_chunks_individually(chunks, document_id)` (lines 395-479). -/
def processChunksIndividually (chunks : List Chunk) : ExtractionResult :=
  let acc := collectChunks chunks
  let unique_controls := dedupControls acc.1
  { document_character_count := acc.2.2
    identified_controls_count := unique_controls.length
    total_raw_controls_found := acc.1.length
    chunks_processed := chunks.length
    mapped_controls := unique_controls
    gap_analysis := dedupGapDict acc.2.1 }

/-! ## Helper lemmas -/

/-- Lemma: `dropWhile` passes over a prefix whose elements all satisfy the
predicate. -/
theorem dropWhile_append_all {p : Char → Bool} :
    ∀ (l₁ l₂ : List Char), (∀ c ∈ l₁, p c = true) →
      (l₁ ++ l₂).dropWhile p = l₂.dropWhile p := by
  intro l₁ l₂ h
  induction l₁ with
  | nil => rfl
  | cons x t ih =>
    have hx : p x = true := h x (List.mem_cons_self x t)
    simp only [List.cons_append, List.dropWhile_cons_of_pos hx]
    exact ih (fun c hc => h c (List.mem_cons_of_mem x hc))

/-- Lemma: `dropWhile` empties a list whose elements all satisfy the predicate. -/
theorem dropWhile_all_nil {p : Char → Bool} :
    ∀ l : List Char, (∀ c ∈ l, p c = true) → l.dropWhile p = [] := by
  intro l h
  have := dropWhile_append_all l [] h
  simpa using this

/-- Lookup value bound for statuses whose uppercase form is `COMPLETED`. -/
theorem baseProgress_completed (s : String) (h : upperStr s = "COMPLETED") :
    baseProgress s = 100 := by
  by_cases h1 : s = "GENERATING"
  · subst h1; exact absurd h (by decide)
  by_cases h2 : s = "Generating"
  · subst h2; exact absurd h (by decide)
  by_cases h3 : s = "FAILED"
  · subst h3; exact absurd h (by decide)
  by_cases h4 : s = "Failed"
  · subst h4; exact absurd h (by decide)
  by_cases h5 : s = "COMPLETED"
  · subst h5; rfl
  by_cases h6 : s = "Completed"
  · subst h6; rfl
  have ht : statusProgressTable s = none := by
    simp [statusProgressTable, h1, h2, h3, h4, h5, h6]
  have hu : statusProgressTable (upperStr s) = some 100 := by rw [h]; decide
  simp [baseProgress, ht, hu]

/-- Lookup value bound for statuses whose uppercase form is `FAILED`. -/
theorem baseProgress_failed (s : String) (h : upperStr s = "FAILED") :
    baseProgress s = 0 := by
  by_cases h1 : s = "GENERATING"
  · subst h1; exact absurd h (by decide)
  by_cases h2 : s = "Generating"
  · subst h2; exact absurd h (by decide)
  by_cases h3 : s = "COMPLETED"
  · subst h3; exact absurd h (by decide)
  by_cases h4 : s = "Completed"
  · subst h4; exact absurd h (by decide)
  by_cases h5 : s = "FAILED"
  · subst h5; rfl
  by_cases h6 : s = "Failed"
  · subst h6; rfl
  have ht : statusProgressTable s = none := by
    simp [statusProgressTable, h1, h2, h3, h4, h5, h6]
  have hu : statusProgressTable (upperStr s) = some 0 := by rw [h]; decide
  simp [baseProgress, ht, hu]

/-- Lookup value bound for statuses whose uppercase form is `GENERATING`. -/
theorem baseProgress_generating (s : String) (h : upperStr s = "GENERATING") :
    baseProgress s = 20 := by
  by_cases h1 : s = "COMPLETED"
  · subst h1; exact absurd h (by decide)
  by_cases h2 : s = "Completed"
  · subst h2; exact absurd h (by decide)
  by_cases h3 : s = "FAILED"
  · subst h3; exact absurd h (by decide)
  by_cases h4 : s = "Failed"
  · subst h4; exact absurd h (by decide)
  by_cases h5 : s = "GENERATING"
  · subst h5; rfl
  by_cases h6 : s = "Generating"
  · subst h6; rfl
  have ht : statusProgressTable s = none := by
    simp [statusProgressTable, h1, h2, h3, h4, h5, h6]
  have hu : statusProgressTable (upperStr s) = some 20 := by rw [h]; decide
  simp [baseProgress, ht, hu]

/-- The Generating refinement guard is off unless the uppercase status is
`GENERATING`. -/
theorem refine_guard_off (s : String) (h : upperStr s ≠ "GENERATING") :
    ¬ (upperStr s = "GENERATING" ∨ s = "Generating") := by
  rintro (hg | hg)
  · exact h hg
  · subst hg; exact h (by decide)

/-! ## Claim C4 — progress calculator -/

/-- C4: the progress calculator agrees with the spec's description: a pure
function of (status, latest trail entry) returning 100 on Completed and 0
on Failed case-insensitively for any entry, and for Generating the value of
the first matching substring of the lowercased latest action among
"analysis started"→25, "analysis complete"→50, "policy generation
started"→70, "policy generation complete"→90, "project completed"→100 in
that order, else the base 20. -/
theorem calculateProgress_matches_spec (status : String) (entry : Option AuditTrailEntry)
    (h : upperStr status = "COMPLETED" ∨ upperStr status = "FAILED" ∨
         upperStr status = "GENERATING") :
    calculateProgress status entry = progressSpec status (entry.map (fun e => e.action)) := by
  rcases h with h | h | h
  · have hb := baseProgress_completed status h
    have hng : ¬ (upperStr status = "GENERATING" ∨ status = "Generating") :=
      refine_guard_off status (by rw [h]; decide)
    have hsg : status ≠ "Generating" := fun hg => hng (Or.inr hg)
    cases entry with
    | none => simp [calculateProgress, progressSpec, h, hb]
    | some e => simp [calculateProgress, progressSpec, h, hb, hng, hsg]
  · have hb := baseProgress_failed status h
    have hng : ¬ (upperStr status = "GENERATING" ∨ status = "Generating") :=
      refine_guard_off status (by rw [h]; decide)
    have hsg : status ≠ "Generating" := fun hg => hng (Or.inr hg)
    have hnc : upperStr status ≠ "COMPLETED" := by rw [h]; decide
    cases entry with
    | none => simp [calculateProgress, progressSpec, h, hb, hnc]
    | some e => simp [calculateProgress, progressSpec, h, hb, hnc, hng, hsg]
  · have hb := baseProgress_generating status h
    have hnc : upperStr status ≠ "COMPLETED" := by rw [h]; decide
    have hnf : upperStr status ≠ "FAILED" := by rw [h]; decide
    cases entry with
    | none => simp [calculateProgress, progressSpec, hb, hnc, hnf]
    | some e =>
      simp only [calculateProgress, progressSpec, Option.map_some']
      rw [if_pos (Or.inl h), if_neg hnc, if_neg hnf]
      split_ifs <;> simp [hb]

/-- Witness for C4 at a concrete input: status `"Completed"` with a latest
action that would otherwise map to 25 still yields 100. -/
theorem calculateProgress_matches_spec_witness :
    upperStr "Completed" = "COMPLETED" ∧
    calculateProgress "Completed" (some ⟨"Analysis Started", ""⟩) =
      progressSpec "Completed" (some "Analysis Started") := by
  refine ⟨by decide, ?_⟩
  exact calculateProgress_matches_spec "Completed" (some ⟨"Analysis Started", ""⟩)
    (Or.inl (by decide))

/-! ## Claim C5 — determinism of the framework-based fallback analysis -/

/-- C5: the no-document gap-analysis fallback is deterministic: two calls
with the same framework and the same catalog-derived control list return
identical compliance_score, covered_controls, missing_controls and gaps;
moreover for every known framework those four fields equal the static
table entry, independent of the control list. -/
theorem gfba_deterministic (framework : String) (cs₁ cs₂ : List String)
    (hcs : cs₁ = cs₂) :
    ((generateFrameworkBasedAnalysis framework cs₁).compliance_score =
       (generateFrameworkBasedAnalysis framework cs₂).compliance_score ∧
     (generateFrameworkBasedAnalysis framework cs₁).covered_controls =
       (generateFrameworkBasedAnalysis framework cs₂).covered_controls ∧
     (generateFrameworkBasedAnalysis framework cs₁).missing_controls =
       (generateFrameworkBasedAnalysis framework cs₂).missing_controls ∧
     (generateFrameworkBasedAnalysis framework cs₁).gaps =
       (generateFrameworkBasedAnalysis framework cs₂).gaps) ∧
    (∀ d, frameworkSpecificData framework = some d →
      (generateFrameworkBasedAnalysis framework cs₁).compliance_score = d.1 ∧
      (generateFrameworkBasedAnalysis framework cs₁).covered_controls = d.2.1 ∧
      (generateFrameworkBasedAnalysis framework cs₁).missing_controls = d.2.2.1 ∧
      (generateFrameworkBasedAnalysis framework cs₁).gaps = d.2.2.2) := by
  subst hcs
  refine ⟨⟨rfl, rfl, rfl, rfl⟩, ?_⟩
  intro d hd
  simp [generateFrameworkBasedAnalysis, hd]

/-- Witness for C5 at a concrete input: for ISO27001 the fallback fields
are the static table values, with either an empty or a populated control
list. -/
theorem gfba_deterministic_witness :
    (generateFrameworkBasedAnalysis "ISO27001" []).compliance_score = 78 ∧
    (generateFrameworkBasedAnalysis "ISO27001" ["A.5.1.1"]).gaps =
      ["Asset inventory management", "Incident response procedures",
       "Legal and contractual requirements"] := by
  refine ⟨?_, ?_⟩
  · exact ((gfba_deterministic "ISO27001" [] [] rfl).2 _ rfl).1
  · exact ((gfba_deterministic "ISO27001" ["A.5.1.1"] ["A.5.1.1"] rfl).2 _ rfl).2.2.2

/-! ## Claim C9 — generic fallback for unknown frameworks -/

/-- C9: for a framework with no static analysis entry, the framework-based
fallback returns at most 5 covered controls, at most 5 missing controls
and exactly 3 gap phrases; with a non-empty catalog list the covered
controls are its first 5, and with more than 5 catalog controls the
missing controls are the next 5. Total by construction (never raises). -/
theorem unknownFramework_generic_fallback (framework : String) (cs : List String)
    (h : frameworkSpecificData framework = none) :
    (generateFrameworkBasedAnalysis framework cs).covered_controls.length ≤ 5 ∧
    (generateFrameworkBasedAnalysis framework cs).missing_controls.length ≤ 5 ∧
    (generateFrameworkBasedAnalysis framework cs).gaps.length = 3 ∧
    (cs ≠ [] → (generateFrameworkBasedAnalysis framework cs).covered_controls = cs.take 5) ∧
    (5 < cs.length →
      (generateFrameworkBasedAnalysis framework cs).missing_controls = (cs.take 10).drop 5) := by
  by_cases hcs : cs.isEmpty
  · have hnil : cs = [] := List.isEmpty_iff.mp hcs
    subst hnil
    refine ⟨?_, ?_, ?_, ?_, ?_⟩ <;> simp [generateFrameworkBasedAnalysis, h]
  · have hne : cs ≠ [] := fun hn => hcs (by simp [hn])
    refine ⟨?_, ?_, ?_, ?_, ?_⟩
    · simp only [generateFrameworkBasedAnalysis, h, hcs]
      simp [List.length_take]
    · simp only [generateFrameworkBasedAnalysis, h, hcs]
      by_cases h5 : 5 < cs.length
      · simp [h5, List.length_take]
      · simp [h5]
    · simp [generateFrameworkBasedAnalysis, h, hcs]
    · intro _
      simp only [generateFrameworkBasedAnalysis, h, hcs]
      simp only [Bool.false_eq_true, if_false]
      rw [List.take_eq_take]
      omega
    · intro h5
      simp [generateFrameworkBasedAnalysis, h, hcs, h5]
      have htk : List.take (10 ⊓ cs.length) cs = List.take 10 cs := by
        rw [List.take_eq_take]
        omega
      rw [htk]

/-- Witness for C9 at the spec's Scenario C input: framework
`"ACME_STANDARD"` with its catalog-default control list. -/
theorem unknownFramework_generic_fallback_witness :
    frameworkSpecificData "ACME_STANDARD" = none ∧
    (generateFrameworkBasedAnalysis "ACME_STANDARD"
      (getDefaultFrameworkControls "ACME_STANDARD")).covered_controls.length ≤ 5 ∧
    (generateFrameworkBasedAnalysis "ACME_STANDARD"
      (getDefaultFrameworkControls "ACME_STANDARD")).missing_controls.length ≤ 5 ∧
    (generateFrameworkBasedAnalysis "ACME_STANDARD"
      (getDefaultFrameworkControls "ACME_STANDARD")).gaps.length = 3 := by
  have h := unknownFramework_generic_fallback "ACME_STANDARD"
    (getDefaultFrameworkControls "ACME_STANDARD") (by decide)
  exact ⟨by decide, h.1, h.2.1, h.2.2.1⟩

/-! ## Sample states and environments for the lifecycle claims -/

/-- A fragment of the static `GRCKnowledgeBase` catalog (ISO27001 entries
copied from `knowledge_base.py`); the lifecycle theorems hold for any
knowledge-base contents. -/
def kbSample : KnowledgeBase :=
  { frameworks := [("ISO27001",
      { name := "ISO 27001 - Information Security Management",
        controls :=
          [("A.5.1.1",
            { title := "Information security policies",
              description := "Information security policies shall be defined and approved by management" }),
           ("A.9.1.1",
            { title := "Access control policy",
              description := "An access control policy shall be established and reviewed" })] })] }

/-- A fresh project record as `create_audit_project` persists it. -/
def freshProject : Project :=
  { status := .generating, compliance_score := none, covered_controls := [],
    missing_controls := [], generated_policy := none,
    audit_trail := [⟨"Project Created", "Started policy generation for ISO27001"⟩] }

/-- A project the workflow already completed. -/
def completedProject : Project :=
  { status := .completed, compliance_score := some 78,
    covered_controls := ["A.5.1.1"], missing_controls := ["A.8.1.1"],
    generated_policy := some { content := "Policy body", citations := [], word_count := 2 },
    audit_trail := [⟨"Project Created", ""⟩, ⟨"Project Completed", ""⟩] }

/-- Environment where every awaited call succeeds (LLM answer absent, so
the deterministic fallbacks are used inside the stages). -/
def envAllOk : WorkflowEnv :=
  { analysisAwait := .ok, docQuery := .timeout, policyAwait := .ok, llmPolicy := none }

/-- Environment where only the 5-minute analysis guard fires. -/
def envAnalysisTimeout : WorkflowEnv :=
  { analysisAwait := .timeout, docQuery := .timeout, policyAwait := .ok,
    llmPolicy := some "policy text" }

/-- Environment where the analysis stage raises a non-timeout exception. -/
def envAnalysisErr : WorkflowEnv :=
  { analysisAwait := .err "LLM connection refused", docQuery := .timeout,
    policyAwait := .ok, llmPolicy := none }

/-- Environment where only the 10-minute policy guard fires. -/
def envPolicyTimeout : WorkflowEnv :=
  { analysisAwait := .ok, docQuery := .timeout, policyAwait := .timeout,
    llmPolicy := none }

/-! ## Claim C1 — guarded-stage timeout vs. exception handling -/

/-- Counterexample to C1 as stated: with every other outcome successful
and the knowledge base available, a timeout of the guarded analysis stage
alone drives the project to Failed — the workflow does not substitute the
stage fallback on timeout (lines 158-159 re-raise `ServiceError`, reaching
the outer handler at lines 236-248). -/
theorem stage_timeout_fails_project :
    (runWorkflow (some kbSample) true true envAnalysisTimeout (some "doc-1")
      "Test Security Policy" "ISO27001" freshProject).status = .failed ∧
    (runWorkflow (some kbSample) true true envAnalysisTimeout (some "doc-1")
      "Test Security Policy" "ISO27001" freshProject).status ≠ .completed := by
  exact ⟨rfl, by decide⟩

/-- C1 amended: a non-timeout exception inside a guarded stage demotes the
stage to its deterministic fallback and the workflow proceeds (reaching
Completed whenever the knowledge base is available); a timeout of a
guarded stage, however, is re-raised as `ServiceError` and marks the
project Failed. -/
theorem workflow_stage_outcome_semantics (kb : KnowledgeBase)
    (dp llm : Bool) (env : WorkflowEnv) (docId : Option String)
    (title fw : String) (p : Project) :
    (env.analysisAwait ≠ .timeout → env.policyAwait ≠ .timeout →
      (runWorkflow (some kb) dp llm env docId title fw p).status = .completed) ∧
    (env.analysisAwait = .timeout →
      (runWorkflow (some kb) dp llm env docId title fw p).status = .failed) ∧
    (env.analysisAwait ≠ .timeout → env.policyAwait = .timeout →
      (runWorkflow (some kb) dp llm env docId title fw p).status = .failed) := by
  cases ha : env.analysisAwait <;> cases hp : env.policyAwait <;>
    simp_all [runWorkflow, runPolicyStage, runCompletionStage, generateCitations,
      completeProject, failWorkflow, addAuditTrailEntry, updateProjectStatus]

/-- Witness for C1 amended at concrete inputs: an analysis-stage exception
still completes the project; a policy-stage timeout fails it. -/
theorem workflow_stage_outcome_semantics_witness :
    (runWorkflow (some kbSample) true true envAnalysisErr none
      "Test Security Policy" "ISO27001" freshProject).status = .completed ∧
    (runWorkflow (some kbSample) true true envPolicyTimeout none
      "Test Security Policy" "ISO27001" freshProject).status = .failed := by
  refine ⟨?_, ?_⟩
  · exact (workflow_stage_outcome_semantics kbSample true true envAnalysisErr none
      "Test Security Policy" "ISO27001" freshProject).1 (by decide) (by decide)
  · exact (workflow_stage_outcome_semantics kbSample true true envPolicyTimeout none
      "Test Security Policy" "ISO27001" freshProject).2.2 (by decide) rfl

/-! ## Claim C2 — terminal-status stability -/

/-- Counterexample to C2 as stated: the manual-update operation copies any
non-`policy_content` key of its `update_data` into the `$set` document
(lines 1350-1358), so an update carrying a `status` key moves a Completed
project back to Generating. -/
theorem manualUpdate_regresses_terminal_status :
    completedProject.status = .completed ∧
    (updateAuditProject { status := some .generating } completedProject).status =
      .generating := by
  exact ⟨rfl, rfl⟩

/-- A status-safe operation never changes the status field. -/
theorem statusSafe_preserves (p : Project) (op : Op) (hop : op.statusSafe) :
    (applyOp p op).status = p.status := by
  cases op with
  | updateStatus s => simp [Op.statusSafe] at hop
  | complete gp sc c m => simp [Op.statusSafe] at hop
  | addTrail a d => rfl
  | manualUpdate u =>
    have hs : u.status = none := hop
    cases hpc : u.policy_content with
    | none =>
      cases hcs : u.compliance_score <;>
        simp [applyOp, updateAuditProject, addAuditTrailEntry, hs, hpc, hcs]
    | some content =>
      cases hgp : p.generated_policy <;> cases hcs : u.compliance_score <;>
        simp [applyOp, updateAuditProject, addAuditTrailEntry, hs, hpc, hcs, hgp]

/-- C2 amended: once a project is Completed or Failed, workflow trail
appends and manual updates whose `update_data` carries no `status` key
never change its status; the unrestricted manual update (a `status` key in
`update_data`) and the raw status-update primitive can still overwrite a
terminal status, as the counterexample shows. -/
theorem terminal_status_stable (p : Project) (ops : List Op)
    (hterm : p.status = .completed ∨ p.status = .failed)
    (hsafe : ∀ op ∈ ops, op.statusSafe) :
    (ops.foldl applyOp p).status = p.status := by
  induction ops generalizing p with
  | nil => rfl
  | cons op rest ih =>
    have h1 : (applyOp p op).status = p.status :=
      statusSafe_preserves p op (hsafe op (by simp))
    have h2 := ih (applyOp p op) (by rw [h1]; exact hterm)
      (fun o ho => hsafe o (by simp [ho]))
    simp only [List.foldl_cons]
    rw [h2, h1]

/-- Witness for C2 amended at a concrete input: a trail append followed by
a policy-content-only manual update leaves a Completed project Completed. -/
theorem terminal_status_stable_witness :
    (([Op.addTrail "Policy Updated" "Policy content was manually edited and saved",
       Op.manualUpdate { policy_content := some "Revised policy body" }] :
        List Op).foldl applyOp completedProject).status = completedProject.status := by
  refine terminal_status_stable completedProject _ (Or.inl rfl) ?_
  intro op hop
  rcases List.mem_cons.mp hop with h | h
  · subst h; trivial
  · rcases List.mem_cons.mp h with h2 | h2
    · subst h2; rfl
    · simp at h2

/-! ## Claim C3 — policy and score only on Completed -/

/-- A project still in generation. -/
def generatingProject : Project :=
  { status := .generating, compliance_score := none, covered_controls := [],
    missing_controls := [], generated_policy := none,
    audit_trail := [⟨"Project Created", ""⟩] }

/-- Counterexample to C3 as stated: the manual-update path (lines
1331-1348) creates a `generated_policy` on a project whose status is still
Generating, without touching the status. -/
theorem manualUpdate_sets_policy_off_completed :
    generatingProject.status = .generating ∧
    generatingProject.generated_policy = none ∧
    (updateAuditProject { policy_content := some "Updated security policy body" }
        generatingProject).status = .generating ∧
    (updateAuditProject { policy_content := some "Updated security policy body" }
        generatingProject).generated_policy.isSome = true := by
  exact ⟨rfl, rfl, rfl, rfl⟩

/-- C3 amended: the background workflow stores `generated_policy` and
`compliance_score` only atomically with setting status Completed — a run
that does not end Completed leaves both unset; the manual-update path,
however, can set `generated_policy` (and, via key passthrough, any field)
on a project of any status, as the counterexample shows. -/
theorem workflow_policy_only_on_completed (kb : Option KnowledgeBase)
    (dp llm : Bool) (env : WorkflowEnv) (docId : Option String)
    (title fw : String) (p : Project)
    (hpol : p.generated_policy = none) (hsc : p.compliance_score = none)
    (hstat : (runWorkflow kb dp llm env docId title fw p).status ≠ .completed) :
    (runWorkflow kb dp llm env docId title fw p).generated_policy = none ∧
    (runWorkflow kb dp llm env docId title fw p).compliance_score = none := by
  cases kb with
  | some k =>
    cases ha : env.analysisAwait <;> cases hp : env.policyAwait <;>
      simp_all [runWorkflow, runPolicyStage, runCompletionStage, generateCitations,
        completeProject, failWorkflow, addAuditTrailEntry, updateProjectStatus]
  | none =>
    cases ha : env.analysisAwait <;> cases hp : env.policyAwait <;>
      simp_all [runWorkflow, runPolicyStage, runCompletionStage, generateCitations,
        completeProject, failWorkflow, addAuditTrailEntry, updateProjectStatus]

/-- Witness for C3 amended at a concrete input: a run that fails at the
citation step leaves policy and score unset. -/
theorem workflow_policy_only_on_completed_witness :
    (runWorkflow none true true envAllOk none "Acme Policy" "ACME_STANDARD"
      generatingProject).generated_policy = none ∧
    (runWorkflow none true true envAllOk none "Acme Policy" "ACME_STANDARD"
      generatingProject).compliance_score = none := by
  have hf : (runWorkflow none true true envAllOk none "Acme Policy" "ACME_STANDARD"
      generatingProject).status = .failed := rfl
  exact workflow_policy_only_on_completed none true true envAllOk none
    "Acme Policy" "ACME_STANDARD" generatingProject rfl rfl (by rw [hf]; decide)

/-! ## Claim C10 — unguarded knowledge base in citation derivation -/

/-- C10: when the framework knowledge base is unavailable (`None`), the
citation-derivation step raises (an `AttributeError` on `None`, line 793)
— in fact for any analysis, in particular any with at least one covered or
missing control — and a workflow whose analysis and synthesis stages both
succeeded (via fallback) is nevertheless marked Failed, with the
citation-step error recorded in the trail; the analysis and synthesis
stages themselves guard against the missing knowledge base (lines 254-259,
350-351) and still produce their results. -/
theorem citations_unguarded_kb (a : Analysis) (fw : String) (env : WorkflowEnv)
    (dp llm : Bool) (docId : Option String) (title : String) (p : Project)
    (hc : a.covered_controls ≠ [] ∨ a.missing_controls ≠ []) :
    (∃ e, generateCitations none a fw = .error e) ∧
    (env.analysisAwait = .ok → env.policyAwait = .ok →
      (runWorkflow none dp llm env docId title fw p).status = .failed ∧
      (⟨"Generation Failed",
        "Policy generation failed: Failed to complete project: AttributeError: NoneType object has no attribute get_framework_info"⟩ :
          AuditTrailEntry) ∈ (runWorkflow none dp llm env docId title fw p).audit_trail) := by
  refine ⟨⟨_, rfl⟩, ?_⟩
  intro ha hp
  simp [runWorkflow, ha, runPolicyStage, hp, runCompletionStage, generateCitations,
    failWorkflow, addAuditTrailEntry, updateProjectStatus]

/-- Witness for C10 at a concrete input. -/
theorem citations_unguarded_kb_witness :
    (∃ e, generateCitations none getDefaultAnalysis "ISO27001" = .error e) ∧
    (runWorkflow none true true envAllOk none "Test Security Policy" "ISO27001"
      generatingProject).status = .failed := by
  have h := citations_unguarded_kb getDefaultAnalysis "ISO27001" envAllOk true true
    none "Test Security Policy" generatingProject (Or.inl (by decide))
  exact ⟨h.1, (h.2 rfl rfl).1⟩

/-! ## Claim C6 — malformed chunks contribute nothing to the merge -/

/-- Lemma: `chunkStep` always adds the chunk's character count to the counter and
computes the control/gap components independently of it. -/
theorem chunkStep_decomp (a : List MappedControl)
    (b : List (String × List GapEntry)) (n : Nat) (c : Chunk) :
    chunkStep (a, b, n) c =
      ((chunkStep (a, b, 0) c).1, (chunkStep (a, b, 0) c).2.1, n + c.text.length) := by
  unfold chunkStep
  by_cases h : (stripStr c.text).length < 100
  · simp [h]
  · cases hc : c.llmOutcome <;> simp [h, hc]

/-- The control and gap components of the accumulation loop do not depend
on the character counter. -/
theorem foldl_chunkStep_chars_irrel (l : List Chunk) :
    ∀ (a : List MappedControl) (b : List (String × List GapEntry)) (n m : Nat),
      (l.foldl chunkStep (a, b, n)).1 = (l.foldl chunkStep (a, b, m)).1 ∧
      (l.foldl chunkStep (a, b, n)).2.1 = (l.foldl chunkStep (a, b, m)).2.1 := by
  induction l with
  | nil => intro a b n m; exact ⟨rfl, rfl⟩
  | cons c rest ih =>
    intro a b n m
    rw [List.foldl_cons, List.foldl_cons, chunkStep_decomp a b n c, chunkStep_decomp a b m c]
    exact ih _ _ _ _

/-- A chunk whose LLM outcome is `{}` only advances the character counter. -/
theorem chunkStep_none (a : List MappedControl) (b : List (String × List GapEntry))
    (n : Nat) (c : Chunk) (h : c.llmOutcome = none) :
    chunkStep (a, b, n) c = (a, b, n + c.text.length) := by
  unfold chunkStep
  by_cases ht : (stripStr c.text).length < 100 <;> simp [ht, h]

/-- C6: a chunk whose per-chunk LLM response is malformed, empty or
otherwise unparseable (`_process_document_chunk` returns `{}`) contributes
zero entries: the merged `mapped_controls` and `gap_analysis` are exactly
those obtained without that chunk, leaving the other chunks' controls
unaffected; the merge is a total function (no exception). -/
theorem malformed_chunk_no_contribution (pre post : List Chunk) (bad : Chunk)
    (h : bad.llmOutcome = none) :
    (processChunksIndividually (pre ++ bad :: post)).mapped_controls =
      (processChunksIndividually (pre ++ post)).mapped_controls ∧
    (processChunksIndividually (pre ++ bad :: post)).gap_analysis =
      (processChunksIndividually (pre ++ post)).gap_analysis := by
  unfold processChunksIndividually collectChunks
  rw [List.foldl_append, List.foldl_append, List.foldl_cons]
  have hsplit : ∀ q : List MappedControl × List (String × List GapEntry) × Nat,
      q = (q.1, q.2.1, q.2.2) := fun q => rfl
  rw [hsplit (List.foldl chunkStep ([], [], 0) pre)]
  rw [chunkStep_none _ _ _ _ h]
  constructor
  · exact congrArg dedupControls
      (foldl_chunkStep_chars_irrel post _ _ _ _).1
  · exact congrArg dedupGapDict
      (foldl_chunkStep_chars_irrel post _ _ _ _).2

/-- A 120-character chunk text (above the 100-character skip threshold). -/
def longText (c : Char) : String := String.mk (List.replicate 120 c)

/-- A control extracted from chunk 1. -/
def ctrlA : MappedControl :=
  { extracted_statement := "All user access is reviewed quarterly by the security team",
    ai_control_summary := "Periodic access review", mappings := [] }

/-- A control extracted from chunk 3. -/
def ctrlB : MappedControl :=
  { extracted_statement := "Backups are encrypted at rest and tested monthly",
    ai_control_summary := "Backup protection", mappings := [] }

/-- Chunk 1: parses, one control and one ISO 27001 gap entry. -/
def chunkOk1 : Chunk :=
  { text := longText 'a',
    llmOutcome := some
      { mapped_controls := [ctrlA],
        gap_analysis := [("ISO 27001",
          [{ control_id := "A.8.1.1", control_title := "Asset inventory",
             description := "Inventory of assets shall be maintained" }])] } }

/-- Chunk 2: unparseable LLM output. -/
def chunkBad : Chunk := { text := longText 'b', llmOutcome := none }

/-- Chunk 3: parses, one control. -/
def chunkOk3 : Chunk :=
  { text := longText 'c',
    llmOutcome := some { mapped_controls := [ctrlB], gap_analysis := [] } }

/-- Witness for C6 at the spec's Scenario B: three chunks with the second
unparseable merge to the controls of chunks 1 and 3 alone. -/
theorem malformed_chunk_no_contribution_witness :
    (processChunksIndividually [chunkOk1, chunkBad, chunkOk3]).mapped_controls =
      (processChunksIndividually [chunkOk1, chunkOk3]).mapped_controls :=
  (malformed_chunk_no_contribution [chunkOk1] [chunkOk3] chunkBad rfl).1

/-! ## Claim C7 — dedup key semantics -/

/-- Occurrences of dedup key `k` in a control list. -/
def countKey (k : String) (l : List MappedControl) : Nat :=
  (l.filter (fun c => controlKey c = k)).length

/-- Occurrences of `control_id` `i` in a gap list. -/
def countGapId (i : String) (l : List GapEntry) : Nat :=
  (l.filter (fun g => g.control_id = i)).length

/-- Unfolding `countKey` over a cons. -/
theorem countKey_cons (k : String) (c : MappedControl) (l : List MappedControl) :
    countKey k (c :: l) =
      if controlKey c = k then countKey k l + 1 else countKey k l := by
  unfold countKey
  by_cases h : controlKey c = k <;> simp [List.filter_cons, h]

/-- Unfolding `countGapId` over a cons. -/
theorem countGapId_cons (i : String) (g : GapEntry) (l : List GapEntry) :
    countGapId i (g :: l) =
      if g.control_id = i then countGapId i l + 1 else countGapId i l := by
  unfold countGapId
  by_cases h : g.control_id = i <;> simp [List.filter_cons, h]

/-- Keys already seen never reappear in the dedup output. -/
theorem dedupAux_countKey_of_mem (l : List MappedControl) :
    ∀ seen k, k ∈ seen → countKey k (dedupControlsAux l seen) = 0 := by
  induction l with
  | nil => intro seen k _; rfl
  | cons c rest ih =>
    intro seen k hk
    unfold dedupControlsAux
    by_cases hkeep : controlKey c ∉ seen ∧ stripStr c.extracted_statement ≠ ""
    · rw [if_pos hkeep, countKey_cons]
      have hck : ¬ controlKey c = k := fun he => hkeep.1 (he ▸ hk)
      rw [if_neg hck]
      exact ih (controlKey c :: seen) k (List.mem_cons_of_mem _ hk)
    · rw [if_neg hkeep]
      exact ih seen k hk

/-- Every dedup key occurs at most once in the dedup output. -/
theorem dedupAux_countKey_le (l : List MappedControl) :
    ∀ seen k, countKey k (dedupControlsAux l seen) ≤ 1 := by
  induction l with
  | nil => intro seen k; exact Nat.zero_le 1
  | cons c rest ih =>
    intro seen k
    unfold dedupControlsAux
    by_cases hkeep : controlKey c ∉ seen ∧ stripStr c.extracted_statement ≠ ""
    · rw [if_pos hkeep, countKey_cons]
      by_cases hck : controlKey c = k
      · rw [if_pos hck]
        have h0 := dedupAux_countKey_of_mem rest (controlKey c :: seen) k
          (by rw [hck]; exact List.mem_cons_self k seen)
        omega
      · rw [if_neg hck]
        exact ih _ k
    · rw [if_neg hkeep]
      exact ih seen k

/-- A key carried by some control with non-empty stripped statement occurs
exactly once in the dedup output. -/
theorem dedupAux_countKey_one (l : List MappedControl) :
    ∀ seen k, k ∉ seen →
      (∃ c ∈ l, controlKey c = k ∧ stripStr c.extracted_statement ≠ "") →
      countKey k (dedupControlsAux l seen) = 1 := by
  induction l with
  | nil =>
    intro seen k _ hex
    rcases hex with ⟨c, hc, _⟩
    cases hc
  | cons c rest ih =>
    intro seen k hk hex
    unfold dedupControlsAux
    by_cases hkeep : controlKey c ∉ seen ∧ stripStr c.extracted_statement ≠ ""
    · rw [if_pos hkeep, countKey_cons]
      by_cases hck : controlKey c = k
      · rw [if_pos hck]
        have h0 := dedupAux_countKey_of_mem rest (controlKey c :: seen) k
          (by rw [hck]; exact List.mem_cons_self k seen)
        omega
      · rw [if_neg hck]
        apply ih (controlKey c :: seen) k
        · intro hmem
          rcases List.mem_cons.mp hmem with he | he
          · exact hck he.symm
          · exact hk he
        · rcases hex with ⟨c', hc', hkc', hst'⟩
          rcases List.mem_cons.mp hc' with rfl | hmem
          · exact absurd hkc' hck
          · exact ⟨c', hmem, hkc', hst'⟩
    · rw [if_neg hkeep]
      apply ih seen k hk
      rcases hex with ⟨c', hc', hkc', hst'⟩
      rcases List.mem_cons.mp hc' with rfl | hmem
      · exfalso
        rcases not_and_or.mp hkeep with hins | hstm
        · exact hk (hkc' ▸ not_not.mp hins)
        · exact hstm hst'
      · exact ⟨c', hmem, hkc', hst'⟩

/-- Seen control ids never reappear in the gap dedup output. -/
theorem dedupGapsAux_count_of_mem (l : List GapEntry) :
    ∀ seen i, i ∈ seen → countGapId i (dedupGapsAux l seen) = 0 := by
  induction l with
  | nil => intro seen i _; rfl
  | cons g rest ih =>
    intro seen i hi
    unfold dedupGapsAux
    by_cases hg : g.control_id ∈ seen
    · rw [if_pos hg]
      exact ih seen i hi
    · rw [if_neg hg, countGapId_cons]
      have hne : ¬ g.control_id = i := fun he => hg (he ▸ hi)
      rw [if_neg hne]
      exact ih (g.control_id :: seen) i (List.mem_cons_of_mem _ hi)

/-- Every control id occurs at most once in the gap dedup output. -/
theorem dedupGapsAux_count_le (l : List GapEntry) :
    ∀ seen i, countGapId i (dedupGapsAux l seen) ≤ 1 := by
  induction l with
  | nil => intro seen i; exact Nat.zero_le 1
  | cons g rest ih =>
    intro seen i
    unfold dedupGapsAux
    by_cases hg : g.control_id ∈ seen
    · rw [if_pos hg]; exact ih seen i
    · rw [if_neg hg, countGapId_cons]
      by_cases hne : g.control_id = i
      · rw [if_pos hne]
        have h0 := dedupGapsAux_count_of_mem rest (g.control_id :: seen) i
          (by rw [hne]; exact List.mem_cons_self i seen)
        omega
      · rw [if_neg hne]
        exact ih _ i

/-- A control id present in the input occurs exactly once in the gap dedup
output. -/
theorem dedupGapsAux_count_one (l : List GapEntry) :
    ∀ seen i, i ∉ seen → (∃ g ∈ l, g.control_id = i) →
      countGapId i (dedupGapsAux l seen) = 1 := by
  induction l with
  | nil =>
    intro seen i _ hex
    rcases hex with ⟨g, hg, _⟩
    cases hg
  | cons g rest ih =>
    intro seen i hi hex
    unfold dedupGapsAux
    by_cases hg : g.control_id ∈ seen
    · rw [if_pos hg]
      apply ih seen i hi
      rcases hex with ⟨g', hg', hid⟩
      rcases List.mem_cons.mp hg' with rfl | hmem
      · exact absurd (hid ▸ hg) hi
      · exact ⟨g', hmem, hid⟩
    · rw [if_neg hg, countGapId_cons]
      by_cases hne : g.control_id = i
      · rw [if_pos hne]
        have h0 := dedupGapsAux_count_of_mem rest (g.control_id :: seen) i
          (by rw [hne]; exact List.mem_cons_self i seen)
        omega
      · rw [if_neg hne]
        apply ih (g.control_id :: seen) i
        · intro hmem
          rcases List.mem_cons.mp hmem with he | he
          · exact hne he.symm
          · exact hi he
        · rcases hex with ⟨g', hg', hid⟩
          rcases List.mem_cons.mp hg' with rfl | hmem
          · exact absurd hid hne
          · exact ⟨g', hmem, hid⟩

/-- A control whose stripped statement is empty. -/
def ctrlEmptyStatement : MappedControl :=
  { extracted_statement := "",
    ai_control_summary := "Access reviews are performed quarterly", mappings := [] }

/-- Counterexample to C7 as stated: the dedup is not purely key-based —
a control with an empty (stripped) `extracted_statement` is dropped even
though its key was never seen (line 442 additionally requires a truthy
`statement`), so the claimed keep-first-per-key dedup retains it while the
code's dedup returns the empty list. -/
theorem dedup_drops_empty_statement :
    claimDedup [ctrlEmptyStatement] = [ctrlEmptyStatement] ∧
    dedupControls [ctrlEmptyStatement] = [] := by
  constructor <;> decide

/-- C7 amended: a control is kept exactly when its stripped
`extracted_statement` is non-empty and its key (first 100 characters of
the stripped statement, a separator, and the first 100 characters of the
stripped summary) was not seen before, keeping the first occurrence —
hence any key occurs at most once in the output, and exactly once when
some control carries it with a non-empty stripped statement (so two chunks
producing controls with identical non-empty {extracted_statement,
ai_control_summary} merge into exactly one control); per-framework gap
entries are deduplicated by `control_id`, keeping the first. -/
theorem dedup_key_characterization (l : List MappedControl) (k : String)
    (gs : List GapEntry) (i : String) :
    countKey k (dedupControls l) ≤ 1 ∧
    ((∃ c ∈ l, controlKey c = k ∧ stripStr c.extracted_statement ≠ "") →
      countKey k (dedupControls l) = 1) ∧
    countGapId i (dedupGapsAux gs []) ≤ 1 ∧
    ((∃ g ∈ gs, g.control_id = i) → countGapId i (dedupGapsAux gs []) = 1) :=
  ⟨dedupAux_countKey_le l [] k,
   fun hex => dedupAux_countKey_one l [] k (by simp) hex,
   dedupGapsAux_count_le gs [] i,
   fun hex => dedupGapsAux_count_one gs [] i (by simp) hex⟩

/-- A duplicated control with non-empty statement. -/
def ctrlDup : MappedControl :=
  { extracted_statement := "Access control policy shall be established and reviewed",
    ai_control_summary := "Documented access control policy", mappings := [] }

/-- Witness for C7 amended at a concrete input: two identical controls from
two chunks merge into exactly one, and duplicated gap ids collapse. -/
theorem dedup_key_characterization_witness :
    countKey (controlKey ctrlDup) (dedupControls [ctrlDup, ctrlDup]) = 1 ∧
    countGapId "A.8.1.1"
      (dedupGapsAux [⟨"A.8.1.1", "Asset inventory", "x"⟩,
                     ⟨"A.8.1.1", "Asset inventory", "y"⟩] []) = 1 := by
  constructor
  · exact (dedup_key_characterization [ctrlDup, ctrlDup] (controlKey ctrlDup)
      [] "A.8.1.1").2.1 ⟨ctrlDup, by simp, rfl, by decide⟩
  · exact (dedup_key_characterization [] "" _ "A.8.1.1").2.2.2
      ⟨⟨"A.8.1.1", "Asset inventory", "x"⟩, by simp, rfl⟩

/-! ## Claim C8 — tolerant JSON extraction -/

/-- Lemma: `toList` inverts `String.mk`. -/
theorem toList_mk (cs : List Char) : (String.mk cs).toList = cs := rfl

/-- Counterexample to C8 as stated: on two juxtaposed JSON objects the
claimed first-balanced-object extraction returns the first object, but the
greedy regex spans from the first opening to the last closing brace, so
`json.loads` fails and `extract_json` yields the empty result instead of
the first object. -/
theorem greedy_regex_misses_first_object :
    claimExtractJson "\x7b\"a\": 1\x7d\x7b\"b\": 2\x7d" =
      some (Json.obj [("a", Json.num 1)]) ∧
    extract_json "\x7b\"a\": 1\x7d\x7b\"b\": 2\x7d" = none := by
  exact ⟨rfl, rfl⟩

/-- C8 amended: `extract_json` takes the greedy span from the first
opening brace to the last closing brace of the whole text and returns its
JSON parse; when that span parses (in particular, a single object wrapped
in brace-free noise) the parsed object is returned, and when it does not
(for example two juxtaposed objects, which make the greedy span invalid
JSON) or no span exists, the empty result is returned without raising. -/
theorem extract_json_greedy_semantics :
    (∀ (pre mid post : List Char) (v : Json),
      (∀ c ∈ pre, c ≠ '{') → (∀ c ∈ post, c ≠ '}') →
      jsonParse (String.mk ('{' :: (mid ++ ['}']))) = some v →
      extract_json (String.mk (pre ++ '{' :: (mid ++ ['}'] ++ post))) = some v) ∧
    (∀ cs : List Char, (∀ c ∈ cs, c ≠ '}') → extract_json (String.mk cs) = none) := by
  constructor
  · intro pre mid post v hpre hpost hp
    have h1 : (pre ++ '{' :: (mid ++ ['}'] ++ post)).reverse =
        post.reverse ++ '}' :: (mid.reverse ++ ('{' :: pre.reverse)) := by simp
    have hpostrev : ∀ c ∈ post.reverse, notClose c = true := by
      intro c hc
      simp only [notClose, decide_eq_true_eq]
      exact hpost c (List.mem_reverse.mp hc)
    have h2 : (pre ++ '{' :: (mid ++ ['}'] ++ post)).reverse.dropWhile notClose =
        '}' :: (mid.reverse ++ ('{' :: pre.reverse)) := by
      rw [h1, dropWhile_append_all _ _ hpostrev]
      exact List.dropWhile_cons_of_neg (by simp [notClose])
    have h3 : ('}' :: (mid.reverse ++ ('{' :: pre.reverse))).reverse =
        pre ++ '{' :: (mid ++ ['}']) := by simp
    have hpreall : ∀ c ∈ pre, notOpen c = true := by
      intro c hc
      simp only [notOpen, decide_eq_true_eq]
      exact hpre c hc
    have h4 : (pre ++ '{' :: (mid ++ ['}'])).dropWhile notOpen =
        '{' :: (mid ++ ['}']) := by
      rw [dropWhile_append_all _ _ hpreall]
      exact List.dropWhile_cons_of_neg (by simp [notOpen])
    have hspan : greedyBraceSpan (pre ++ '{' :: (mid ++ ['}'] ++ post)) =
        some ('{' :: (mid ++ ['}'])) := by
      simp only [greedyBraceSpan, h2, h3, h4]
      simp
    unfold extract_json
    rw [toList_mk, hspan]
    exact hp
  · intro cs hcs
    have hall : ∀ c ∈ cs.reverse, notClose c = true := by
      intro c hc
      simp only [notClose, decide_eq_true_eq]
      exact hcs c (List.mem_reverse.mp hc)
    unfold extract_json greedyBraceSpan
    rw [toList_mk, dropWhile_all_nil cs.reverse hall]
    rfl

/-- Witness for C8 amended at concrete inputs: a single object wrapped in
brace-free noise is extracted; text with no closing brace yields the empty
result. -/
theorem extract_json_greedy_semantics_witness :
    extract_json (String.mk ("Sure, here is the mapping: ".toList ++
      '{' :: ("\"a\": 1".toList ++ ['}'] ++ " Done.".toList))) =
      some (Json.obj [("a", Json.num 1)]) ∧
    extract_json (String.mk "no json here".toList) = none := by
  constructor
  · exact extract_json_greedy_semantics.1 "Sure, here is the mapping: ".toList
      "\"a\": 1".toList " Done.".toList (Json.obj [("a", Json.num 1)])
      (by decide) (by decide) rfl
  · exact extract_json_greedy_semantics.2 "no json here".toList (by decide)

end CompliAi
